import Mathlib

/-!
Shallow embedding of the Leveraged Position Engine of this repository.

Two settlement variants exist in the source:
* `MorphoFlashLoanLeverageHelper` (src/contracts/src/MorphoFlashLoan.sol):
  Morpho Blue flash loans, authorization-based, self-repay in the callback.
* `FlashLoanLeverageHelper` (src/unnamed/part_014): Aave V3 flash loans,
  credit delegation, mode-2 debt creation.

Machine integers are modelled as `Nat`; Solidity 0.8 checked arithmetic
reverts on overflow/underflow and on division by zero, so every successful
Solidity execution agrees with the unbounded `Nat` computation.  Where the
source can hit a division by zero or an underflow on a path the engine does
not guard, the model returns an explicit `Err.arithmeticError`.
-/

/-- The fixed-point unit 1e18 (`PRECISION` in both contracts). -/
def PRECISION : ℕ := 10 ^ 18

/-- Constant `MAX_LEVERAGE = 100e18` in both contracts. -/
def MAX_LEVERAGE : ℕ := 100 * 10 ^ 18

/-- Constant `MIN_HEALTH_FACTOR = 1e18` in both contracts. -/
def MIN_HEALTH_FACTOR : ℕ := 10 ^ 18

/-- Constant `BPS_BASE = 10000` (Aave variant). -/
def BPS_BASE : ℕ := 10000

/-- Morpho oracles quote the wstETH/WETH price in 36 decimals. -/
def ORACLE_SCALE : ℕ := 10 ^ 36

/-- Value of `type(uint256).max`. -/
def UINT256_MAX : ℕ := 2 ^ 256 - 1

/-- Error kinds raised by the engine (union of both variants' custom errors,
plus `arithmeticError` for Solidity arithmetic reverts). -/
inductive Err where
  | InvalidParameters
  | InsufficientDeposit
  | UnsafeLeverage
  | TransferFailed
  | InvalidCaller
  | AuthorizationNotGranted
  | NoDebtPosition
  | InsufficientSwapOutput
  | InsufficientDelegation
  | ContractPaused
  | arithmeticError
  deriving DecidableEq, Repr

/-- Externally visible actions of the engine's entry points, recorded in
program order (including actions later undone by a revert). -/
inductive Event where
  | authCheck (ok : Bool)
  | transferFromUser (amount : ℕ)
  | flashLoan (amount : ℕ)
  deriving DecidableEq, Repr

/-- Combined state of the engine, the calling owner, and the Morpho market
the engine is bound to.  Balances are the ERC20 balances relevant to the
operation; `userCollateral`/`userBorrowShares` live inside Morpho. -/
structure EngineState where
  engineWeth : ℕ
  engineWsteth : ℕ
  userWsteth : ℕ
  userCollateral : ℕ
  userBorrowShares : ℕ
  totalBorrowAssets : ℕ
  totalBorrowShares : ℕ
  deriving DecidableEq, Repr

/-- Environment of one engine invocation: oracle price (36 decimals), the
market's LLTV (18 decimals), the owner's standing Morpho authorization, the
pause flag, the swap venue's realized outputs, and the interest the market
accrues between the entry-point read and the flash-loan callback. -/
structure Config where
  oraclePrice : ℕ
  lltv : ℕ
  authorized : Bool
  paused : Bool
  swapWethToWsteth : ℕ → ℕ
  swapWstethToWeth : ℕ → ℕ
  accrueInterest : ℕ

/-- Solidity's `(a + b - 1) / b` ceiling-division idiom, as written inline in
`executeDeleverage` and `_handleDeleverage`. -/
def solCeilDiv (a b : ℕ) : ℕ := (a + b - 1) / b

/-- Modelled from the spec: external Lending Protocol share conversion (§6,
glossary "Debt Shares").  Morpho Blue's `SharesMathLib` semantics with
virtual shares 1e6 and virtual assets 1; rounding up. -/
def toSharesUp (assets totalAssets totalShares : ℕ) : ℕ :=
  (assets * (totalShares + 10 ^ 6) + totalAssets) / (totalAssets + 1)

/-- Modelled from the spec: shares→assets conversion, rounding up. -/
def toAssetsUp (shares totalAssets totalShares : ℕ) : ℕ :=
  (shares * (totalAssets + 1) + totalShares + 10 ^ 6 - 1) / (totalShares + 10 ^ 6)

/-- Modelled from the spec: assets→shares conversion, rounding down. -/
def toSharesDown (assets totalAssets totalShares : ℕ) : ℕ :=
  assets * (totalShares + 10 ^ 6) / (totalAssets + 1)

/-- Modelled from the spec: `supplyCollateral` (§6) — the protocol pulls
`assets` of collateral from the engine and credits the owner's position. -/
def morphoSupplyCollateral (s : EngineState) (assets : ℕ) : Except Err EngineState :=
  if s.engineWsteth < assets then .error .TransferFailed
  else .ok { s with engineWsteth := s.engineWsteth - assets,
                    userCollateral := s.userCollateral + assets }

/-- Modelled from the spec: `borrow` by exact assets on the owner's behalf,
proceeds to the engine (§6).  Debt shares are minted rounding up. -/
def morphoBorrow (s : EngineState) (assets : ℕ) : Except Err (EngineState × ℕ) :=
  .ok ({ s with
          userBorrowShares := s.userBorrowShares + toSharesUp assets s.totalBorrowAssets s.totalBorrowShares,
          totalBorrowShares := s.totalBorrowShares + toSharesUp assets s.totalBorrowAssets s.totalBorrowShares,
          totalBorrowAssets := s.totalBorrowAssets + assets,
          engineWeth := s.engineWeth + assets }, assets)

/-- Modelled from the spec: settlement step of `repay` — burns the computed
shares from the owner's position and pulls the asset amount from the engine. -/
def morphoRepayRun (s : EngineState) (repaidShares assetsRepaid : ℕ) :
    Except Err (EngineState × ℕ) :=
  if s.userBorrowShares < repaidShares then .error .arithmeticError
  else if s.engineWeth < assetsRepaid then .error .TransferFailed
  else .ok ({ s with
                userBorrowShares := s.userBorrowShares - repaidShares,
                totalBorrowShares := s.totalBorrowShares - repaidShares,
                totalBorrowAssets := s.totalBorrowAssets - assetsRepaid,
                engineWeth := s.engineWeth - assetsRepaid }, assetsRepaid)

/-- Modelled from the spec: `repay(asset, amount|shares, onBehalf)` (§6).
Exactly one of `assets`/`shares` is nonzero; repaying by shares burns exactly
those shares and pulls the rounded-up asset amount from the engine. -/
def morphoRepay (s : EngineState) (assets shares : ℕ) : Except Err (EngineState × ℕ) :=
  if (assets = 0 ∧ shares = 0) ∨ (assets ≠ 0 ∧ shares ≠ 0) then .error .InvalidParameters
  else if shares = 0 then
    morphoRepayRun s (toSharesDown assets s.totalBorrowAssets s.totalBorrowShares) assets
  else
    morphoRepayRun s shares (toAssetsUp shares s.totalBorrowAssets s.totalBorrowShares)

/-- Modelled from the spec: `withdrawCollateral(amount, onBehalf, receiver)`
(§6) — debits the owner's position and sends collateral to the engine. -/
def morphoWithdrawCollateral (s : EngineState) (assets : ℕ) : Except Err EngineState :=
  if s.userCollateral < assets then .error .arithmeticError
  else .ok { s with userCollateral := s.userCollateral - assets,
                    engineWsteth := s.engineWsteth + assets }

/-- Flash-loan sizing of `executeLeverage` (MorphoFlashLoan.sol line 212):
`(userDeposit * oraclePrice * (targetLeverage - PRECISION)) / (PRECISION * 1e36)`. -/
def morphoFlashWeth (oraclePrice userDeposit targetLeverage : ℕ) : ℕ :=
  userDeposit * oraclePrice * (targetLeverage - PRECISION) / (PRECISION * ORACLE_SCALE)

/-- Embeds `_calculateHealthFactor` (MorphoFlashLoan.sol lines 471-498).  The final
division panics in Solidity when the converted debt is zero; the model makes
that an explicit `arithmeticError`. -/
def calculateHealthFactor (oraclePrice lltv : ℕ) (s : EngineState) : Except Err ℕ :=
  if s.userBorrowShares = 0 then .ok UINT256_MAX
  else if 0 < s.totalBorrowShares then
    if s.userBorrowShares * s.totalBorrowAssets / s.totalBorrowShares = 0 then .error .arithmeticError
    else .ok (s.userCollateral * oraclePrice / ORACLE_SCALE * lltv /
              (s.userBorrowShares * s.totalBorrowAssets / s.totalBorrowShares))
  else .ok UINT256_MAX

/-- Embeds `_validatePosition` (MorphoFlashLoan.sol lines 453-464). -/
def validatePosition (oraclePrice lltv : ℕ) (s : EngineState) : Except Err ℕ :=
  if s.userCollateral = 0 ∨ s.userBorrowShares = 0 then .error .UnsafeLeverage
  else
    match calculateHealthFactor oraclePrice lltv s with
    | .error e => .error e
    | .ok hf => if hf < MIN_HEALTH_FACTOR then .error .UnsafeLeverage else .ok hf

theorem morphoSupplyCollateral_ok (s : EngineState) (a : ℕ) (t : EngineState)
    (h : morphoSupplyCollateral s a = .ok t) :
    a ≤ s.engineWsteth ∧
      t = { s with engineWsteth := s.engineWsteth - a,
                   userCollateral := s.userCollateral + a } := by
  unfold morphoSupplyCollateral at h
  split_ifs at h with h1
  cases h
  exact ⟨le_of_not_lt h1, rfl⟩

theorem morphoBorrow_ok (s : EngineState) (a : ℕ) (t : EngineState) (b : ℕ)
    (h : morphoBorrow s a = .ok (t, b)) :
    b = a ∧
      t = { s with
              userBorrowShares := s.userBorrowShares + toSharesUp a s.totalBorrowAssets s.totalBorrowShares,
              totalBorrowShares := s.totalBorrowShares + toSharesUp a s.totalBorrowAssets s.totalBorrowShares,
              totalBorrowAssets := s.totalBorrowAssets + a,
              engineWeth := s.engineWeth + a } := by
  unfold morphoBorrow at h
  cases h
  exact ⟨rfl, rfl⟩

theorem validatePosition_ok (oraclePrice lltv : ℕ) (s : EngineState) (hf : ℕ)
    (h : validatePosition oraclePrice lltv s = .ok hf) :
    calculateHealthFactor oraclePrice lltv s = .ok hf ∧ MIN_HEALTH_FACTOR ≤ hf ∧
      s.userCollateral ≠ 0 ∧ s.userBorrowShares ≠ 0 := by
  unfold validatePosition at h
  split_ifs at h with h1
  split at h
  · cases h
  · rename_i v hc
    split_ifs at h with h2
    push_neg at h1
    cases h
    exact ⟨hc, le_of_not_lt h2, h1.1, h1.2⟩

/-- Embeds `_handleLeverage` (MorphoFlashLoan.sol lines 275-313): swap the whole
flash-loaned WETH into wstETH, supply the user's deposit plus the swap
output as collateral, borrow the flash amount against the user's position,
and validate the final position. -/
def morphoHandleLeverage (cfg : Config) (s : EngineState) (flashWeth userDeposit : ℕ) :
    Except Err EngineState :=
  if s.engineWeth < flashWeth then .error .TransferFailed
  else
    match morphoSupplyCollateral
        { s with engineWeth := s.engineWeth - flashWeth,
                 engineWsteth := s.engineWsteth + cfg.swapWethToWsteth flashWeth }
        (userDeposit + cfg.swapWethToWsteth flashWeth) with
    | .error e => .error e
    | .ok s2 =>
      match morphoBorrow s2 flashWeth with
      | .error e => .error e
      | .ok (s3, borrowedAssets) =>
        if borrowedAssets < flashWeth then .error .TransferFailed
        else
          match validatePosition cfg.oraclePrice cfg.lltv s3 with
          | .error e => .error e
          | .ok _ => .ok s3

theorem morphoHandleLeverage_ok (cfg : Config) (s : EngineState)
    (flashWeth userDeposit : ℕ) (t : EngineState)
    (h : morphoHandleLeverage cfg s flashWeth userDeposit = .ok t) :
    t.engineWeth = s.engineWeth ∧
      t.engineWsteth + userDeposit = s.engineWsteth ∧
      t.userWsteth = s.userWsteth ∧
      ∃ hf, validatePosition cfg.oraclePrice cfg.lltv t = .ok hf := by
  unfold morphoHandleLeverage at h
  split_ifs at h with h1
  split at h
  · cases h
  · rename_i s2 hs2
    split at h
    · cases h
    · rename_i s3 borrowed hs3
      split_ifs at h with h2
      split at h
      · cases h
      · rename_i hf hv
        cases h
        obtain ⟨hle, ht2⟩ := morphoSupplyCollateral_ok _ _ _ hs2
        obtain ⟨hb, ht3⟩ := morphoBorrow_ok _ _ _ _ hs3
        subst ht2 ht3
        dsimp only at hle ⊢
        exact ⟨by omega, by omega, rfl, hf, hv⟩

/-- Settlement of a Morpho flash loan after the callback returns: Morpho
pulls exactly the loaned amount back from the engine (flash loans are free). -/
def morphoFlashSettle (flashWeth : ℕ) (r : Except Err EngineState) : Except Err EngineState :=
  match r with
  | .error e => .error e
  | .ok t =>
    if t.engineWeth < flashWeth then .error .TransferFailed
    else .ok { t with engineWeth := t.engineWeth - flashWeth }

theorem morphoFlashSettle_ok (flashWeth : ℕ) (r : Except Err EngineState) (t : EngineState)
    (h : morphoFlashSettle flashWeth r = .ok t) :
    ∃ u, r = .ok u ∧ flashWeth ≤ u.engineWeth ∧
      t = { u with engineWeth := u.engineWeth - flashWeth } := by
  unfold morphoFlashSettle at h
  split at h
  · cases h
  · rename_i u
    split_ifs at h with h1
    cases h
    exact ⟨u, rfl, le_of_not_lt h1, rfl⟩

/-- Embeds `executeLeverage` (MorphoFlashLoan.sol lines 195-225) combined with the
flash-loan round trip: parameter checks, authorization check, deposit pull,
flash-loan sizing, callback, and loan settlement.  The second component is
the program-order trace of externally visible actions; when the first
component is an error the whole transaction reverts and no state change
persists. -/
def morphoExecuteLeverage (cfg : Config) (s : EngineState) (targetLeverage userDeposit : ℕ) :
    Except Err EngineState × List Event :=
  if cfg.paused then (.error .ContractPaused, [])
  else if targetLeverage ≤ PRECISION ∨ MAX_LEVERAGE < targetLeverage then
    (.error .InvalidParameters, [])
  else if userDeposit = 0 then (.error .InsufficientDeposit, [])
  else if cfg.authorized = false then (.error .AuthorizationNotGranted, [.authCheck false])
  else if s.userWsteth < userDeposit then (.error .TransferFailed, [.authCheck true])
  else
    let flashWeth := morphoFlashWeth cfg.oraclePrice userDeposit targetLeverage
    if flashWeth = 0 then
      (.error .InvalidParameters, [.authCheck true, .transferFromUser userDeposit])
    else
      (morphoFlashSettle flashWeth
        (morphoHandleLeverage cfg
          { s with userWsteth := s.userWsteth - userDeposit,
                   engineWsteth := s.engineWsteth + userDeposit,
                   engineWeth := s.engineWeth + flashWeth,
                   totalBorrowAssets := s.totalBorrowAssets + cfg.accrueInterest }
          flashWeth userDeposit),
       [.authCheck true, .transferFromUser userDeposit, .flashLoan flashWeth])

theorem validatePosition_set_engineWeth (oraclePrice lltv x : ℕ) (u : EngineState) :
    validatePosition oraclePrice lltv { u with engineWeth := x } =
      validatePosition oraclePrice lltv u := rfl

theorem morphoExecuteLeverage_ok (cfg : Config) (s : EngineState)
    (targetLeverage userDeposit : ℕ) (t : EngineState)
    (h : (morphoExecuteLeverage cfg s targetLeverage userDeposit).1 = .ok t) :
    t.engineWeth = s.engineWeth ∧
      t.engineWsteth = s.engineWsteth ∧
      (∃ hf, validatePosition cfg.oraclePrice cfg.lltv t = .ok hf) := by
  simp only [morphoExecuteLeverage] at h
  split_ifs at h with h1 h2 h3 h4 h5 h6 <;> try cases h
  obtain ⟨u, hu, hle, ht⟩ := morphoFlashSettle_ok _ _ _ h
  obtain ⟨he1, he2, he3, hf, hv⟩ := morphoHandleLeverage_ok _ _ _ _ _ hu
  subst ht
  dsimp only at he1 he2 he3 ⊢
  refine ⟨by omega, by omega, hf, ?_⟩
  rw [validatePosition_set_engineWeth]
  exact hv

/-- Conversion of the owner's borrow shares to a rounded-up debt amount, as
written inline in `executeDeleverage` (MorphoFlashLoan.sol line 337):
`(borrowShares * totalBorrowAssets + totalBorrowShares - 1) / totalBorrowShares`. -/
def sharesToDebtAmountUp (borrowShares totalBorrowAssets totalBorrowShares : ℕ) : ℕ :=
  (borrowShares * totalBorrowAssets + totalBorrowShares - 1) / totalBorrowShares

/-- Fallback of `_handleDeleverage` (MorphoFlashLoan.sol lines 399-405): if
the first swap left the engine short of the flash amount, swap all remaining
wstETH. -/
def morphoDelevFallbackSwap (cfg : Config) (flashWeth : ℕ) (s : EngineState) : EngineState :=
  if s.engineWeth < flashWeth then
    if 0 < s.engineWsteth then
      { s with engineWsteth := 0,
               engineWeth := s.engineWeth + cfg.swapWstethToWeth s.engineWsteth }
    else s
  else s

/-- Steps 3-4 of `_handleDeleverage` (MorphoFlashLoan.sol lines 382-406):
swap the oracle-sized minimum wstETH (2% slippage buffer, ceiling division,
capped at the balance) and, if still short of the flash amount, swap all
remaining wstETH as a fallback. -/
def morphoDelevSwapPhase (cfg : Config) (flashWeth : ℕ) (s : EngineState) :
    Except Err EngineState :=
  if 0 < flashWeth - s.engineWeth then
    if cfg.oraclePrice * 100 = 0 then .error .arithmeticError
    else
      let wstethToSwap :=
        min (solCeilDiv ((flashWeth - s.engineWeth) * ORACLE_SCALE * 102) (cfg.oraclePrice * 100))
            s.engineWsteth
      .ok (morphoDelevFallbackSwap cfg flashWeth
        { s with engineWsteth := s.engineWsteth - wstethToSwap,
                 engineWeth := s.engineWeth + cfg.swapWstethToWeth wstethToSwap })
  else .ok s

theorem morphoDelevFallbackSwap_fields (cfg : Config) (flashWeth : ℕ) (s : EngineState) :
    (morphoDelevFallbackSwap cfg flashWeth s).userWsteth = s.userWsteth ∧
      (morphoDelevFallbackSwap cfg flashWeth s).userCollateral = s.userCollateral ∧
      (morphoDelevFallbackSwap cfg flashWeth s).userBorrowShares = s.userBorrowShares := by
  unfold morphoDelevFallbackSwap
  split_ifs <;> exact ⟨rfl, rfl, rfl⟩

theorem morphoDelevSwapPhase_ok (cfg : Config) (flashWeth : ℕ) (s t : EngineState)
    (h : morphoDelevSwapPhase cfg flashWeth s = .ok t) :
    t.userWsteth = s.userWsteth ∧ t.userCollateral = s.userCollateral ∧
      t.userBorrowShares = s.userBorrowShares := by
  unfold morphoDelevSwapPhase at h
  split_ifs at h with h1 h2 <;> cases h
  · exact morphoDelevFallbackSwap_fields _ _ _
  · exact ⟨rfl, rfl, rfl⟩

/-- Step 5 of `_handleDeleverage` (MorphoFlashLoan.sol lines 418-422):
transfer all remaining wstETH (equity plus converted surplus) to the owner. -/
def morphoReturnAllWsteth (s : EngineState) : EngineState :=
  if 0 < s.engineWsteth then
    { s with engineWsteth := 0, userWsteth := s.userWsteth + s.engineWsteth }
  else s

/-- Step 4 then step 5 of `_handleDeleverage` (lines 412-422): swap surplus
WETH beyond the flash amount back to wstETH, then return all wstETH. -/
def morphoDelevReturnPhase (cfg : Config) (flashWeth : ℕ) (s : EngineState) : EngineState :=
  morphoReturnAllWsteth
    (if 0 < s.engineWeth - flashWeth then
      { s with engineWeth := s.engineWeth - (s.engineWeth - flashWeth),
               engineWsteth := s.engineWsteth + cfg.swapWethToWsteth (s.engineWeth - flashWeth) }
    else s)

/-- Embeds `_handleDeleverage` (MorphoFlashLoan.sol lines 361-425): repay the exact
shares with `assets = 0`, withdraw all collateral, run the swap phase, check
coverage of the flash amount, convert any surplus WETH back to wstETH, and
transfer all remaining wstETH to the owner. -/
def morphoHandleDeleverage (cfg : Config) (s : EngineState)
    (flashWeth collateralAmount borrowShares : ℕ) : Except Err EngineState :=
  match morphoRepay s 0 borrowShares with
  | .error e => .error e
  | .ok (s1, _) =>
    match morphoWithdrawCollateral s1 collateralAmount with
    | .error e => .error e
    | .ok s2 =>
      match morphoDelevSwapPhase cfg flashWeth s2 with
      | .error e => .error e
      | .ok s4 =>
        if s4.engineWeth < flashWeth then .error .InsufficientSwapOutput
        else .ok (morphoDelevReturnPhase cfg flashWeth s4)

theorem morphoRepay_shares_ok (s : EngineState) (shares : ℕ) (t : EngineState) (a : ℕ)
    (h : morphoRepay s 0 shares = .ok (t, a)) :
    t.userBorrowShares = s.userBorrowShares - shares ∧
      t.userCollateral = s.userCollateral ∧
      t.engineWsteth = s.engineWsteth ∧
      t.userWsteth = s.userWsteth := by
  unfold morphoRepay at h
  by_cases hs : shares = 0
  · subst hs
    simp at h
  · rw [if_neg (by simp [hs]), if_neg hs] at h
    unfold morphoRepayRun at h
    split_ifs at h with h3 h4
    cases h
    exact ⟨rfl, rfl, rfl, rfl⟩

theorem morphoWithdrawCollateral_ok (s : EngineState) (a : ℕ) (t : EngineState)
    (h : morphoWithdrawCollateral s a = .ok t) :
    t = { s with userCollateral := s.userCollateral - a,
                 engineWsteth := s.engineWsteth + a } := by
  unfold morphoWithdrawCollateral at h
  split_ifs at h with h1
  cases h
  rfl

theorem morphoReturnAllWsteth_fields (s : EngineState) :
    (morphoReturnAllWsteth s).engineWsteth = 0 ∧
      (morphoReturnAllWsteth s).engineWeth = s.engineWeth ∧
      (morphoReturnAllWsteth s).userBorrowShares = s.userBorrowShares := by
  unfold morphoReturnAllWsteth
  split_ifs with h
  · exact ⟨rfl, rfl, rfl⟩
  · exact ⟨by omega, rfl, rfl⟩

theorem morphoDelevReturnPhase_ok (cfg : Config) (flashWeth : ℕ) (s : EngineState)
    (hge : flashWeth ≤ s.engineWeth) :
    (morphoDelevReturnPhase cfg flashWeth s).engineWsteth = 0 ∧
      (morphoDelevReturnPhase cfg flashWeth s).engineWeth = flashWeth ∧
      (morphoDelevReturnPhase cfg flashWeth s).userBorrowShares = s.userBorrowShares := by
  unfold morphoDelevReturnPhase
  split_ifs with h1
  · obtain ⟨a, b, c⟩ := morphoReturnAllWsteth_fields
      { s with engineWeth := s.engineWeth - (s.engineWeth - flashWeth),
               engineWsteth := s.engineWsteth + cfg.swapWethToWsteth (s.engineWeth - flashWeth) }
    refine ⟨a, ?_, c⟩
    rw [b]
    dsimp only
    omega
  · obtain ⟨a, b, c⟩ := morphoReturnAllWsteth_fields s
    exact ⟨a, by omega, c⟩

theorem morphoHandleDeleverage_ok (cfg : Config) (s : EngineState)
    (flashWeth collateralAmount borrowShares : ℕ) (t : EngineState)
    (h : morphoHandleDeleverage cfg s flashWeth collateralAmount borrowShares = .ok t) :
    t.userBorrowShares = s.userBorrowShares - borrowShares ∧
      t.engineWsteth = 0 ∧
      t.engineWeth = flashWeth := by
  unfold morphoHandleDeleverage at h
  split at h
  · cases h
  · rename_i s1 a hrep
    split at h
    · cases h
    · rename_i s2 hwd
      split at h
      · cases h
      · rename_i s4 hsw
        split_ifs at h with h1
        cases h
        obtain ⟨hr1, hr2, hr3, hr4⟩ := morphoRepay_shares_ok _ _ _ _ hrep
        have hw := morphoWithdrawCollateral_ok _ _ _ hwd
        obtain ⟨hs1, hs2, hs3⟩ := morphoDelevSwapPhase_ok _ _ _ _ hsw
        subst hw
        dsimp only at hs3
        obtain ⟨hp1, hp2, hp3⟩ := morphoDelevReturnPhase_ok cfg flashWeth s4 (le_of_not_lt h1)
        exact ⟨by omega, hp1, hp2⟩

/-- Debt-amount conversion of `executeDeleverage` (MorphoFlashLoan.sol
lines 335-338): `debtAmount` stays 0 unless `totalBorrowShares > 0`. -/
def morphoDebtAmount (s : EngineState) : ℕ :=
  if 0 < s.totalBorrowShares then
    sharesToDebtAmountUp s.userBorrowShares s.totalBorrowAssets s.totalBorrowShares
  else 0

/-- Embeds `executeDeleverage` (MorphoFlashLoan.sol lines 321-354) combined with the
flash-loan round trip: authorization check, position read, share→asset
conversion rounding up, 0.1% flash buffer, callback, and loan settlement.
The second component is the program-order trace of externally visible
actions; an error reverts the whole transaction. -/
def morphoExecuteDeleverage (cfg : Config) (s : EngineState) :
    Except Err EngineState × List Event :=
  if cfg.paused then (.error .ContractPaused, [])
  else if cfg.authorized = false then (.error .AuthorizationNotGranted, [.authCheck false])
  else if s.userBorrowShares = 0 ∧ s.userCollateral = 0 then
    (.error .NoDebtPosition, [.authCheck true])
  else if morphoDebtAmount s = 0 then (.error .NoDebtPosition, [.authCheck true])
  else
    let flashAmount := morphoDebtAmount s + morphoDebtAmount s / 1000 + 1
    (morphoFlashSettle flashAmount
      (morphoHandleDeleverage cfg
        { s with engineWeth := s.engineWeth + flashAmount,
                 totalBorrowAssets := s.totalBorrowAssets + cfg.accrueInterest }
        flashAmount s.userCollateral s.userBorrowShares),
     [.authCheck true, .flashLoan flashAmount])

theorem morphoExecuteDeleverage_ok (cfg : Config) (s t : EngineState)
    (h : (morphoExecuteDeleverage cfg s).1 = .ok t) :
    t.userBorrowShares = 0 ∧ t.engineWsteth = 0 ∧ t.engineWeth = 0 := by
  simp only [morphoExecuteDeleverage] at h
  split_ifs at h with h1 h2 h3 h4 <;> try cases h
  obtain ⟨u, hu, hle, ht⟩ := morphoFlashSettle_ok _ _ _ h
  obtain ⟨hd1, hd2, hd3⟩ := morphoHandleDeleverage_ok _ _ _ _ _ _ hu
  subst ht
  dsimp only at hd1 hd2 hd3 ⊢
  refine ⟨by omega, hd2, by omega⟩

theorem morphoDebtAmount_zero_shares (s : EngineState)
    (hz : s.userBorrowShares = 0) : morphoDebtAmount s = 0 := by
  unfold morphoDebtAmount
  split_ifs with h
  · unfold sharesToDebtAmountUp
    rw [hz]
    simp only [Nat.zero_mul, Nat.zero_add]
    exact Nat.div_eq_of_lt (by omega)
  · rfl

/-- Concrete environment for witness runs: oracle at parity (1e36), LLTV 0.8,
authorized caller, identity swaps, no interest accrual. -/
def witnessCfg : Config :=
  { oraclePrice := 10 ^ 36, lltv := 8 * 10 ^ 17, authorized := true, paused := false,
    swapWethToWsteth := fun n => n, swapWstethToWeth := fun n => n, accrueInterest := 0 }

/-- Concrete open position (2x leveraged, 2 wstETH collateral, 1 WETH debt). -/
def delevState : EngineState :=
  { engineWeth := 0, engineWsteth := 0, userWsteth := 0, userCollateral := 2 * 10 ^ 18,
    userBorrowShares := 10 ^ 18, totalBorrowAssets := 10 ^ 18, totalBorrowShares := 10 ^ 18 }

/-- Final state of the witness `executeDeleverage` run. -/
def delevResult : EngineState :=
  ((morphoExecuteDeleverage witnessCfg delevState).1).toOption.getD delevState

/-- Concrete fresh user holding 1 wstETH, empty market. -/
def levState : EngineState :=
  { engineWeth := 0, engineWsteth := 0, userWsteth := 10 ^ 18, userCollateral := 0,
    userBorrowShares := 0, totalBorrowAssets := 0, totalBorrowShares := 0 }

/-- Final state of the witness `executeLeverage` run (2x on 1 wstETH). -/
def levResult : EngineState :=
  ((morphoExecuteLeverage witnessCfg levState (2 * 10 ^ 18) (10 ^ 18)).1).toOption.getD levState

/-- C1: a successful `closePosition` (`executeDeleverage`) leaves the calling
owner's recorded debt shares exactly zero, for any interest accrual between
the position read and the repay call: the repay step passes the exact
`borrowShares` read at the start with `assets = 0`, so the shares burnt
equal the shares held regardless of accrual. -/
theorem C1_closePosition_clears_debt_shares (cfg : Config) (s t : EngineState)
    (h : (morphoExecuteDeleverage cfg s).1 = .ok t) :
    t.userBorrowShares = 0 :=
  (morphoExecuteDeleverage_ok cfg s t h).1

theorem C1_closePosition_clears_debt_shares_witness : delevResult.userBorrowShares = 0 :=
  C1_closePosition_clears_debt_shares witnessCfg delevState delevResult (by rfl)

/-- C7: after every successful `executeLeverage` or `executeDeleverage`, the
engine's own custody of both the collateral asset (wstETH) and the debt
asset (WETH) is exactly zero, given it starts the operation with zero
balances of both. -/
theorem C7_engine_custody_drained :
    (∀ cfg s targetLeverage userDeposit t, s.engineWeth = 0 → s.engineWsteth = 0 →
        (morphoExecuteLeverage cfg s targetLeverage userDeposit).1 = .ok t →
        t.engineWeth = 0 ∧ t.engineWsteth = 0) ∧
    (∀ cfg s t, s.engineWeth = 0 → s.engineWsteth = 0 →
        (morphoExecuteDeleverage cfg s).1 = .ok t →
        t.engineWeth = 0 ∧ t.engineWsteth = 0) := by
  constructor
  · intro cfg s targetLeverage userDeposit t hw hs h
    obtain ⟨h1, h2, -⟩ := morphoExecuteLeverage_ok cfg s targetLeverage userDeposit t h
    exact ⟨by omega, by omega⟩
  · intro cfg s t hw hs h
    obtain ⟨-, h2, h3⟩ := morphoExecuteDeleverage_ok cfg s t h
    exact ⟨h3, h2⟩

theorem C7_engine_custody_drained_witness :
    (levResult.engineWeth = 0 ∧ levResult.engineWsteth = 0) ∧
      (delevResult.engineWeth = 0 ∧ delevResult.engineWsteth = 0) :=
  ⟨C7_engine_custody_drained.1 witnessCfg levState (2 * 10 ^ 18) (10 ^ 18) levResult
      rfl rfl (by rfl),
   C7_engine_custody_drained.2 witnessCfg delevState delevResult rfl rfl (by rfl)⟩

/-- C10: for an owner whose debt shares are zero, `executeDeleverage` reverts
with `NoDebtPosition` even when the owner's collateral is nonzero, and its
trace shows only the authorization check — no flash loan, repay, or transfer
is attempted before the revert. -/
theorem C10_no_debt_reverts_before_flash_loan (cfg : Config) (s : EngineState)
    (hp : cfg.paused = false) (ha : cfg.authorized = true)
    (hz : s.userBorrowShares = 0) :
    morphoExecuteDeleverage cfg s = (.error .NoDebtPosition, [.authCheck true]) := by
  unfold morphoExecuteDeleverage
  rw [if_neg (by simp [hp]), if_neg (by simp [ha])]
  by_cases hc : s.userCollateral = 0
  · rw [if_pos ⟨hz, hc⟩]
  · rw [if_neg (by simp [hc]), if_pos (morphoDebtAmount_zero_shares s hz)]

/-- Debt-free position with nonzero collateral for the C10 witness. -/
def debtFreeState : EngineState :=
  { engineWeth := 0, engineWsteth := 0, userWsteth := 0, userCollateral := 5 * 10 ^ 18,
    userBorrowShares := 0, totalBorrowAssets := 10 ^ 18, totalBorrowShares := 10 ^ 18 }

theorem C10_no_debt_reverts_before_flash_loan_witness :
    morphoExecuteDeleverage witnessCfg debtFreeState =
      (.error .NoDebtPosition, [.authCheck true]) :=
  C10_no_debt_reverts_before_flash_loan witnessCfg debtFreeState rfl rfl rfl

theorem sharesToDebtAmountUp_spec (shares totalAssets totalShares : ℕ)
    (hT : 0 < totalShares) :
    shares * totalAssets ≤ sharesToDebtAmountUp shares totalAssets totalShares * totalShares ∧
    ∀ d, shares * totalAssets ≤ d * totalShares →
      sharesToDebtAmountUp shares totalAssets totalShares ≤ d := by
  unfold sharesToDebtAmountUp
  constructor
  · have h : shares * totalAssets + totalShares - 1 ≤
        totalShares * ((shares * totalAssets + totalShares - 1) / totalShares) + (totalShares - 1) :=
      (Nat.div_le_iff_le_mul_add_pred hT).1 le_rfl
    have e1 : ((shares * totalAssets + totalShares - 1) / totalShares) * totalShares =
        totalShares * ((shares * totalAssets + totalShares - 1) / totalShares) := Nat.mul_comm _ _
    omega
  · intro d hd
    rw [Nat.div_le_iff_le_mul_add_pred hT]
    have e1 : d * totalShares = totalShares * d := Nat.mul_comm _ _
    omega

/-- C6: in `executeDeleverage` the owner's borrow shares are converted to an
asset amount by ceiling division against the live totals: the computed
`debtAmount` is the least `d` with
`d * totalBorrowShares ≥ borrowShares * totalBorrowAssets`. -/
theorem C6_debt_conversion_rounds_up (s : EngineState) (hT : 0 < s.totalBorrowShares) :
    morphoDebtAmount s =
      sharesToDebtAmountUp s.userBorrowShares s.totalBorrowAssets s.totalBorrowShares ∧
    s.userBorrowShares * s.totalBorrowAssets ≤ morphoDebtAmount s * s.totalBorrowShares ∧
    ∀ d, s.userBorrowShares * s.totalBorrowAssets ≤ d * s.totalBorrowShares →
      morphoDebtAmount s ≤ d := by
  have he : morphoDebtAmount s =
      sharesToDebtAmountUp s.userBorrowShares s.totalBorrowAssets s.totalBorrowShares := by
    unfold morphoDebtAmount
    rw [if_pos hT]
  obtain ⟨h1, h2⟩ :=
    sharesToDebtAmountUp_spec s.userBorrowShares s.totalBorrowAssets s.totalBorrowShares hT
  rw [he]
  exact ⟨rfl, h1, h2⟩

theorem C6_debt_conversion_rounds_up_witness :
    delevState.userBorrowShares * delevState.totalBorrowAssets ≤
      morphoDebtAmount delevState * delevState.totalBorrowShares ∧
    morphoDebtAmount delevState ≤ 10 ^ 18 :=
  ⟨(C6_debt_conversion_rounds_up delevState (by decide)).2.1,
   (C6_debt_conversion_rounds_up delevState (by decide)).2.2 (10 ^ 18) (by decide)⟩

/-- C5 counterexample: for `deposit = 1`, `rate = 1e36` and the in-range
leverages `L1 = 2e18 < L2 = 2e18 + 1`, the computed loan amount does not
strictly increase (both floor to 1), refuting strict monotonicity. -/
theorem C5_counterexample :
    PRECISION < 2 * 10 ^ 18 ∧ (2 * 10 ^ 18 : ℕ) < 2 * 10 ^ 18 + 1 ∧
    2 * 10 ^ 18 + 1 ≤ MAX_LEVERAGE ∧ 0 < (1 : ℕ) ∧ (0 : ℕ) < 10 ^ 36 ∧
    ¬ morphoFlashWeth (10 ^ 36) 1 (2 * 10 ^ 18) <
        morphoFlashWeth (10 ^ 36) 1 (2 * 10 ^ 18 + 1) := by
  refine ⟨by norm_num [PRECISION], by norm_num, by norm_num [MAX_LEVERAGE], by norm_num,
    by norm_num, ?_⟩
  have h1 : morphoFlashWeth (10 ^ 36) 1 (2 * 10 ^ 18) = 1 := by decide
  have h2 : morphoFlashWeth (10 ^ 36) 1 (2 * 10 ^ 18 + 1) = 1 := by decide
  omega

/-- C5 amended: the loan amount is monotone (non-strictly) in the target
leverage, and strictly increasing whenever the leverage increment clears one
unit of the fixed-point divisor: `deposit * rate * (L2 - L1) ≥ 1e54`. -/
theorem C5_loan_amount_monotone (oraclePrice userDeposit L1 L2 : ℕ) (h12 : L1 ≤ L2) :
    morphoFlashWeth oraclePrice userDeposit L1 ≤ morphoFlashWeth oraclePrice userDeposit L2 ∧
    (PRECISION ≤ L1 → PRECISION * ORACLE_SCALE ≤ userDeposit * oraclePrice * (L2 - L1) →
      morphoFlashWeth oraclePrice userDeposit L1 < morphoFlashWeth oraclePrice userDeposit L2) := by
  constructor
  · unfold morphoFlashWeth
    exact Nat.div_le_div_right (Nat.mul_le_mul le_rfl (by omega))
  · intro hP hD
    unfold morphoFlashWeth
    have hC : 0 < PRECISION * ORACLE_SCALE :=
      Nat.mul_pos (by norm_num [PRECISION]) (by norm_num [ORACLE_SCALE])
    have hsplit : userDeposit * oraclePrice * (L2 - PRECISION) =
        userDeposit * oraclePrice * (L1 - PRECISION) + userDeposit * oraclePrice * (L2 - L1) := by
      have hsub : L2 - PRECISION = (L1 - PRECISION) + (L2 - L1) := by omega
      rw [hsub, Nat.mul_add]
    rw [hsplit]
    calc userDeposit * oraclePrice * (L1 - PRECISION) / (PRECISION * ORACLE_SCALE)
        < userDeposit * oraclePrice * (L1 - PRECISION) / (PRECISION * ORACLE_SCALE) + 1 :=
          Nat.lt_succ_self _
      _ = (userDeposit * oraclePrice * (L1 - PRECISION) + PRECISION * ORACLE_SCALE) /
            (PRECISION * ORACLE_SCALE) := (Nat.add_div_right _ hC).symm
      _ ≤ (userDeposit * oraclePrice * (L1 - PRECISION) + userDeposit * oraclePrice * (L2 - L1)) /
            (PRECISION * ORACLE_SCALE) := Nat.div_le_div_right (by omega)

theorem C5_loan_amount_monotone_witness :
    morphoFlashWeth (10 ^ 36) (10 ^ 18) (2 * 10 ^ 18) ≤
      morphoFlashWeth (10 ^ 36) (10 ^ 18) (3 * 10 ^ 18) ∧
    morphoFlashWeth (10 ^ 36) (10 ^ 18) (2 * 10 ^ 18) <
      morphoFlashWeth (10 ^ 36) (10 ^ 18) (3 * 10 ^ 18) :=
  ⟨(C5_loan_amount_monotone (10 ^ 36) (10 ^ 18) (2 * 10 ^ 18) (3 * 10 ^ 18) (by norm_num)).1,
   (C5_loan_amount_monotone (10 ^ 36) (10 ^ 18) (2 * 10 ^ 18) (3 * 10 ^ 18) (by norm_num)).2
     (by norm_num [PRECISION]) (by norm_num [PRECISION, ORACLE_SCALE])⟩

/-- Embeds `_getPoolAmountOut` (MorphoFlashLoan.sol lines 435-447): spot estimate
from the Uniswap V3 pool's `sqrtPriceX96`; the wstETH→WETH direction divides
by the square-root price and panics if it is zero. -/
def getPoolAmountOut (sqrtPriceX96 amountIn : ℕ) (wethToWsteth : Bool) : Except Err ℕ :=
  if wethToWsteth then
    .ok (amountIn * sqrtPriceX96 / 2 ^ 96 * sqrtPriceX96 / 2 ^ 96)
  else if sqrtPriceX96 = 0 then .error .arithmeticError
  else .ok (amountIn * 2 ^ 96 / sqrtPriceX96 * 2 ^ 96 / sqrtPriceX96)

/-- Swap-output estimate of `simulateLeverage` (MorphoFlashLoan.sol lines
525-531): pool `slot0` price when a pool is configured and the flash amount
is positive, oracle price otherwise (panics on a zero oracle price). -/
def morphoEstimatedWsteth (oraclePrice : ℕ) (uniPool : Option ℕ) (flashWethAmount : ℕ) :
    Except Err ℕ :=
  match uniPool with
  | some sqrtPrice =>
    if 0 < flashWethAmount then getPoolAmountOut sqrtPrice flashWethAmount true
    else if oraclePrice = 0 then .error .arithmeticError
    else .ok (flashWethAmount * ORACLE_SCALE / oraclePrice)
  | none =>
    if oraclePrice = 0 then .error .arithmeticError
    else .ok (flashWethAmount * ORACLE_SCALE / oraclePrice)

/-- Embeds `simulateLeverage` (MorphoFlashLoan.sol lines 507-546).  Returns
`(flashWethAmount, totalCollateralWsteth, totalDebtWeth, estimatedHealthFactor)`.
Out-of-range inputs return all zeros (the source's early `return (0,0,0,0)`),
they do not revert. -/
def morphoSimulateLeverage (oraclePrice lltv : ℕ) (uniPool : Option ℕ)
    (targetLeverage userDeposit : ℕ) : Except Err (ℕ × ℕ × ℕ × ℕ) :=
  if targetLeverage ≤ PRECISION ∨ userDeposit = 0 then .ok (0, 0, 0, 0)
  else
    match morphoEstimatedWsteth oraclePrice uniPool
        (morphoFlashWeth oraclePrice userDeposit targetLeverage) with
    | .error e => .error e
    | .ok est =>
      if morphoFlashWeth oraclePrice userDeposit targetLeverage = 0 then
        .ok (morphoFlashWeth oraclePrice userDeposit targetLeverage, userDeposit + est,
             morphoFlashWeth oraclePrice userDeposit targetLeverage, UINT256_MAX)
      else
        .ok (morphoFlashWeth oraclePrice userDeposit targetLeverage, userDeposit + est,
             morphoFlashWeth oraclePrice userDeposit targetLeverage,
             (userDeposit + est) * oraclePrice / ORACLE_SCALE * lltv /
               morphoFlashWeth oraclePrice userDeposit targetLeverage)

/-- Modelled from the spec: Position Sizing Calculator output (§4.1) —
`loanAmount = deposit * rate * (targetLeverage - 1.0)` with one combined
multiply before a single division, in 18-decimal leverage and 36-decimal
rate fixed point. -/
def sizingLoanAmountSpec (deposit rate targetLeverage : ℕ) : ℕ :=
  deposit * rate * (targetLeverage - PRECISION) / (PRECISION * ORACLE_SCALE)

/-- C4: the Position Sizing Calculator of both `executeLeverage` and
`simulateLeverage` computes `loanAmount = deposit * rate * (targetLeverage -
1.0)` with one combined multiply before a single division,
`expectedCollateral = deposit + loanAmount / rate` and `expectedDebt =
loanAmount`; the worked example `deposit = 1.0`, `rate = 1.1`,
`targetLeverage = 2.0`, `liquidationThreshold = 0.81` yields
`loanAmount = 1.1`, `expectedCollateral = 2.0`, `expectedDebt = 1.1`,
`healthFactor = 1.62` (all in 18/36-decimal fixed point). -/
theorem C4_sizing_formula_and_worked_example :
    (∀ oraclePrice userDeposit targetLeverage,
        morphoFlashWeth oraclePrice userDeposit targetLeverage =
          sizingLoanAmountSpec userDeposit oraclePrice targetLeverage) ∧
    (∀ rate lltv targetLeverage deposit,
        0 < deposit → 0 < rate → PRECISION < targetLeverage → targetLeverage ≤ MAX_LEVERAGE →
        ∃ hf, morphoSimulateLeverage rate lltv none targetLeverage deposit =
          .ok (sizingLoanAmountSpec deposit rate targetLeverage,
               deposit + sizingLoanAmountSpec deposit rate targetLeverage * ORACLE_SCALE / rate,
               sizingLoanAmountSpec deposit rate targetLeverage, hf)) ∧
    morphoSimulateLeverage (11 * 10 ^ 35) (81 * 10 ^ 16) none (2 * 10 ^ 18) (10 ^ 18) =
      .ok (11 * 10 ^ 17, 2 * 10 ^ 18, 11 * 10 ^ 17, 162 * 10 ^ 16) := by
  refine ⟨fun _ _ _ => rfl, ?_, by rfl⟩
  intro rate lltv L d hd hr hL hLm
  unfold morphoSimulateLeverage
  rw [if_neg (by push_neg; exact ⟨by omega, by omega⟩)]
  have hest : morphoEstimatedWsteth rate none (morphoFlashWeth rate d L) =
      .ok (morphoFlashWeth rate d L * ORACLE_SCALE / rate) := by
    unfold morphoEstimatedWsteth
    rw [if_neg (by omega)]
  rw [hest]
  dsimp only
  split_ifs with h0
  · exact ⟨UINT256_MAX, rfl⟩
  · exact ⟨_, rfl⟩

theorem C4_sizing_formula_and_worked_example_witness :
    ∃ hf, morphoSimulateLeverage (11 * 10 ^ 35) (81 * 10 ^ 16) none (2 * 10 ^ 18) (10 ^ 18) =
      .ok (sizingLoanAmountSpec (10 ^ 18) (11 * 10 ^ 35) (2 * 10 ^ 18),
           10 ^ 18 + sizingLoanAmountSpec (10 ^ 18) (11 * 10 ^ 35) (2 * 10 ^ 18) *
             ORACLE_SCALE / (11 * 10 ^ 35),
           sizingLoanAmountSpec (10 ^ 18) (11 * 10 ^ 35) (2 * 10 ^ 18), hf) :=
  C4_sizing_formula_and_worked_example.2.1 (11 * 10 ^ 35) (81 * 10 ^ 16) (2 * 10 ^ 18)
    (10 ^ 18) (by norm_num) (by norm_num) (by norm_num [PRECISION])
    (by norm_num [MAX_LEVERAGE])

/-- State of the engine, the owner, and the owner's Aave reserve positions
(Aave variant, src/unnamed/part_014).  `userCollateral` is the owner's
aWstETH balance in wstETH units; `userDebt` the variable WETH debt. -/
structure AaveState where
  engineWeth : ℕ
  engineWsteth : ℕ
  userWsteth : ℕ
  userCollateral : ℕ
  userDebt : ℕ
  deriving DecidableEq, Repr

/-- Environment of an Aave-variant invocation: the wstETH exchange rate
(`stEthPerToken`, 18 decimals), the packed reserve configuration word (LTV
in bits 0-15, liquidation threshold in bits 16-31), the owner's standing
WETH credit delegation to the engine, the pause flag, and the swap venue's
realized outputs. -/
structure AaveConfig where
  exchangeRate : ℕ
  reserveConfig : ℕ
  delegatedAllowance : ℕ
  paused : Bool
  swapWethToWsteth : ℕ → ℕ
  swapWstethToWeth : ℕ → ℕ

/-- Flash-loan sizing of the Aave `executeLeverage` (part_014 lines 134-136):
`(userDeposit * exchangeRate * (targetLeverage - PRECISION)) / (PRECISION * PRECISION)`. -/
def aaveFlashWeth (exchangeRate userDeposit targetLeverage : ℕ) : ℕ :=
  userDeposit * exchangeRate * (targetLeverage - PRECISION) / (PRECISION * PRECISION)

/-- Liquidation-threshold bits 16-31 of the packed reserve configuration
(`(config >> 16) & 0xFFFF`). -/
def reserveLiqThreshold (config : ℕ) : ℕ := config / 2 ^ 16 % 2 ^ 16

/-- LTV bits 0-15 of the packed reserve configuration (`config & 0xFFFF`). -/
def reserveLtv (config : ℕ) : ℕ := config % 2 ^ 16

/-- Modelled from the spec: Aave's `getUserAccountData` (§6) — base-currency
collateral value, debt value, and health factor, the latter derived from the
reserve's liquidation threshold exactly as the Lending Protocol defines it. -/
def aaveAccountData (cfg : AaveConfig) (s : AaveState) : ℕ × ℕ × ℕ :=
  (s.userCollateral * cfg.exchangeRate / PRECISION, s.userDebt,
   if s.userDebt = 0 then UINT256_MAX
   else s.userCollateral * cfg.exchangeRate / PRECISION *
          reserveLiqThreshold cfg.reserveConfig * PRECISION / (s.userDebt * BPS_BASE))

/-- Embeds `_validateFinalPosition` (part_014 lines 465-492). -/
def validateFinalPosition (totalCollateralBase totalDebtBase healthFactor : ℕ) :
    Except Err ℕ :=
  if healthFactor < MIN_HEALTH_FACTOR then .error .UnsafeLeverage
  else if totalCollateralBase = 0 ∨ totalDebtBase = 0 then .error .UnsafeLeverage
  else if totalCollateralBase ≤ totalDebtBase then .error .UnsafeLeverage
  else .ok (totalCollateralBase * PRECISION / (totalCollateralBase - totalDebtBase))

theorem validateFinalPosition_ok (c d hf v : ℕ)
    (h : validateFinalPosition c d hf = .ok v) :
    MIN_HEALTH_FACTOR ≤ hf ∧ c ≠ 0 ∧ d ≠ 0 ∧ d < c := by
  unfold validateFinalPosition at h
  split_ifs at h with h1 h2 h3
  cases h
  push_neg at h2
  exact ⟨le_of_not_lt h1, h2.1, h2.2, lt_of_not_le h3⟩

/-- Collateral supply and mode-2 debt creation inside the Aave flash-loan
callback (part_014 lines 288-293): the engine's whole wstETH holding of
`userDeposit + swapOutput` is supplied on the owner's behalf and the
flash-loaned WETH becomes variable debt on the owner. -/
def aaveSupplyAndBorrow (cfg : AaveConfig) (s : AaveState) (flashWeth userDeposit : ℕ) :
    AaveState :=
  { s with
      engineWsteth := s.engineWsteth + cfg.swapWethToWsteth flashWeth -
        (userDeposit + cfg.swapWethToWsteth flashWeth),
      userCollateral := s.userCollateral + (userDeposit + cfg.swapWethToWsteth flashWeth),
      userDebt := s.userDebt + flashWeth }

/-- Flash-loan body plus final validation of the Aave `executeLeverage`
(part_014 lines 260-294 and 465-492): swap all flash-loaned WETH (the router
reverts if the output is below `minWstethOut`), supply the deposit plus the
swap output as collateral, record the mode-2 WETH debt on the owner (no
repayment pull for mode 2), then validate the owner's account data.  The
engine's WETH balance is unchanged net: the flash-loaned WETH is swapped
away in full and mode 2 pulls no repayment. -/
def aaveLeverageRun (cfg : AaveConfig) (s : AaveState)
    (flashWeth userDeposit minWstethOut : ℕ) : Except Err AaveState :=
  if cfg.swapWethToWsteth flashWeth < minWstethOut then .error .InsufficientSwapOutput
  else if s.engineWsteth + cfg.swapWethToWsteth flashWeth <
      userDeposit + cfg.swapWethToWsteth flashWeth then .error .TransferFailed
  else
    match validateFinalPosition
        (aaveAccountData cfg (aaveSupplyAndBorrow cfg s flashWeth userDeposit)).1
        (aaveAccountData cfg (aaveSupplyAndBorrow cfg s flashWeth userDeposit)).2.1
        (aaveAccountData cfg (aaveSupplyAndBorrow cfg s flashWeth userDeposit)).2.2 with
    | .error e => .error e
    | .ok _ => .ok (aaveSupplyAndBorrow cfg s flashWeth userDeposit)

theorem aaveLeverageRun_ok (cfg : AaveConfig) (s : AaveState)
    (flashWeth userDeposit minWstethOut : ℕ) (t : AaveState)
    (h : aaveLeverageRun cfg s flashWeth userDeposit minWstethOut = .ok t) :
    ∃ v, validateFinalPosition (aaveAccountData cfg t).1 (aaveAccountData cfg t).2.1
        (aaveAccountData cfg t).2.2 = .ok v := by
  unfold aaveLeverageRun at h
  split_ifs at h with h1 h2
  split at h
  · cases h
  · rename_i v hv
    cases h
    exact ⟨v, hv⟩

/-- Embeds `executeLeverage` of the Aave variant (part_014 lines 119-172) with the
mode-2 flash-loan semantics.  Note the program order taken from the source:
the deposit `safeTransferFrom` (line 129) runs BEFORE the credit-delegation
check (line 140); a failed check reverts the whole transaction, so no state
change persists, but the transfer is attempted first.  The final position is
validated after the flash loan returns. -/
def aaveExecuteLeverage (cfg : AaveConfig) (s : AaveState)
    (targetLeverage userDeposit minWstethOut : ℕ) : Except Err AaveState × List Event :=
  if cfg.paused then (.error .ContractPaused, [])
  else if targetLeverage ≤ PRECISION ∨ MAX_LEVERAGE < targetLeverage then
    (.error .InvalidParameters, [])
  else if userDeposit = 0 then (.error .InvalidParameters, [])
  else if s.userWsteth < userDeposit then (.error .TransferFailed, [])
  else if aaveFlashWeth cfg.exchangeRate userDeposit targetLeverage = 0 then
    (.error .InvalidParameters, [.transferFromUser userDeposit])
  else if cfg.delegatedAllowance < aaveFlashWeth cfg.exchangeRate userDeposit targetLeverage then
    (.error .InsufficientDelegation, [.transferFromUser userDeposit, .authCheck false])
  else
    (aaveLeverageRun cfg
      { s with userWsteth := s.userWsteth - userDeposit,
               engineWsteth := s.engineWsteth + userDeposit }
      (aaveFlashWeth cfg.exchangeRate userDeposit targetLeverage) userDeposit minWstethOut,
     [.transferFromUser userDeposit, .authCheck true,
      .flashLoan (aaveFlashWeth cfg.exchangeRate userDeposit targetLeverage)])

theorem aaveExecuteLeverage_validated (cfg : AaveConfig) (s : AaveState)
    (targetLeverage userDeposit minWstethOut : ℕ) (t : AaveState)
    (h : (aaveExecuteLeverage cfg s targetLeverage userDeposit minWstethOut).1 = .ok t) :
    ∃ v, validateFinalPosition (aaveAccountData cfg t).1 (aaveAccountData cfg t).2.1
        (aaveAccountData cfg t).2.2 = .ok v := by
  unfold aaveExecuteLeverage at h
  split_ifs at h with h1 h2 h3 h4 h5 h6 <;> try cases h
  exact aaveLeverageRun_ok _ _ _ _ _ _ h

/-- C2: `openPosition` never succeeds with a resulting health factor below
1.0 in either variant: the Morpho pipeline only succeeds when the final
position validates with `healthFactor ≥ MIN_HEALTH_FACTOR` and nonzero
collateral and debt shares; the Aave `_validateFinalPosition` reverts with
`UnsafeLeverage` exactly when the health factor is below 1.0, collateral or
debt is zero, or collateral is not strictly greater than debt; and a
successful Aave pipeline run therefore ends with all of those conditions
satisfied. -/
theorem C2_open_position_health_guarded :
    (∀ cfg s targetLeverage userDeposit t,
        (morphoExecuteLeverage cfg s targetLeverage userDeposit).1 = .ok t →
        ∃ hf, calculateHealthFactor cfg.oraclePrice cfg.lltv t = .ok hf ∧
          MIN_HEALTH_FACTOR ≤ hf ∧ t.userCollateral ≠ 0 ∧ t.userBorrowShares ≠ 0) ∧
    (∀ c d hf, validateFinalPosition c d hf = .error .UnsafeLeverage ↔
        (hf < MIN_HEALTH_FACTOR ∨ c = 0 ∨ d = 0 ∨ c ≤ d)) ∧
    (∀ cfg s targetLeverage userDeposit minOut t,
        (aaveExecuteLeverage cfg s targetLeverage userDeposit minOut).1 = .ok t →
        MIN_HEALTH_FACTOR ≤ (aaveAccountData cfg t).2.2 ∧
        (aaveAccountData cfg t).1 ≠ 0 ∧ (aaveAccountData cfg t).2.1 ≠ 0 ∧
        (aaveAccountData cfg t).2.1 < (aaveAccountData cfg t).1) := by
  refine ⟨?_, ?_, ?_⟩
  · intro cfg s L D t h
    obtain ⟨-, -, hf, hv⟩ := morphoExecuteLeverage_ok cfg s L D t h
    obtain ⟨hc, hm, hcoll, hsh⟩ := validatePosition_ok _ _ _ _ hv
    exact ⟨hf, hc, hm, hcoll, hsh⟩
  · intro c d hf
    unfold validateFinalPosition
    split_ifs with h1 h2 h3
    · exact ⟨fun _ => Or.inl h1, fun _ => rfl⟩
    · refine ⟨fun _ => ?_, fun _ => rfl⟩
      rcases h2 with hc | hd
      · exact Or.inr (Or.inl hc)
      · exact Or.inr (Or.inr (Or.inl hd))
    · exact ⟨fun _ => Or.inr (Or.inr (Or.inr h3)), fun _ => rfl⟩
    · constructor
      · intro hcon
        cases hcon
      · intro hcond
        push_neg at h2
        rcases hcond with hx | hx | hx | hx
        · exact absurd hx h1
        · exact absurd hx h2.1
        · exact absurd hx h2.2
        · exact absurd hx h3
  · intro cfg s L D m t h
    obtain ⟨v, hv⟩ := aaveExecuteLeverage_validated cfg s L D m t h
    exact validateFinalPosition_ok _ _ _ _ hv

/-- Aave-variant environment for witness runs: exchange rate 1.0, LTV 8000
bps and liquidation threshold 8500 bps packed into the reserve word, ample
credit delegation, identity swaps. -/
def aaveOkCfg : AaveConfig :=
  { exchangeRate := 10 ^ 18, reserveConfig := 8000 + 8500 * 2 ^ 16,
    delegatedAllowance := 10 ^ 19, paused := false,
    swapWethToWsteth := fun n => n, swapWstethToWeth := fun n => n }

/-- Fresh Aave-variant user holding 1 wstETH. -/
def aaveStartState : AaveState :=
  { engineWeth := 0, engineWsteth := 0, userWsteth := 10 ^ 18,
    userCollateral := 0, userDebt := 0 }

/-- Final state of the witness Aave `executeLeverage` run (2x on 1 wstETH). -/
def aaveLevResult : AaveState :=
  ((aaveExecuteLeverage aaveOkCfg aaveStartState (2 * 10 ^ 18) (10 ^ 18) 0).1).toOption.getD
    aaveStartState

theorem C2_open_position_health_guarded_witness :
    (∃ hf, calculateHealthFactor witnessCfg.oraclePrice witnessCfg.lltv levResult = .ok hf ∧
      MIN_HEALTH_FACTOR ≤ hf ∧ levResult.userCollateral ≠ 0 ∧
      levResult.userBorrowShares ≠ 0) ∧
    (validateFinalPosition 2 1 0 = .error .UnsafeLeverage ↔
      ((0 : ℕ) < MIN_HEALTH_FACTOR ∨ (2 : ℕ) = 0 ∨ (1 : ℕ) = 0 ∨ (2 : ℕ) ≤ 1)) ∧
    (MIN_HEALTH_FACTOR ≤ (aaveAccountData aaveOkCfg aaveLevResult).2.2 ∧
      (aaveAccountData aaveOkCfg aaveLevResult).1 ≠ 0 ∧
      (aaveAccountData aaveOkCfg aaveLevResult).2.1 ≠ 0 ∧
      (aaveAccountData aaveOkCfg aaveLevResult).2.1 <
        (aaveAccountData aaveOkCfg aaveLevResult).1) :=
  ⟨C2_open_position_health_guarded.1 witnessCfg levState (2 * 10 ^ 18) (10 ^ 18) levResult
     (by rfl),
   C2_open_position_health_guarded.2.1 2 1 0,
   C2_open_position_health_guarded.2.2 aaveOkCfg aaveStartState (2 * 10 ^ 18) (10 ^ 18) 0
     aaveLevResult (by rfl)⟩

/-- Revert semantics of the surrounding execution environment: an errored
transaction leaves the pre-state unchanged. -/
def txFinal {σ : Type} (s : σ) (r : Except Err σ × List Event) : σ :=
  match r.1 with
  | .ok t => t
  | .error _ => s

/-- Aave-variant environment whose owner granted no credit delegation. -/
def lowDelegationCfg : AaveConfig := { aaveOkCfg with delegatedAllowance := 0 }

/-- C3 counterexample: in the Aave variant with insufficient delegation, the
call does fail with `InsufficientDelegation`, but the program-order trace
begins with the deposit `transferFromUser` and only then reaches the failed
delegation check — the authorization check is NOT performed before funds are
moved, refuting the claim's ordering statement. -/
theorem C3_counterexample :
    (aaveExecuteLeverage lowDelegationCfg aaveStartState (2 * 10 ^ 18) (10 ^ 18) 0).1 =
      .error .InsufficientDelegation ∧
    (aaveExecuteLeverage lowDelegationCfg aaveStartState (2 * 10 ^ 18) (10 ^ 18) 0).2 =
      [.transferFromUser (10 ^ 18), .authCheck false] ∧
    ((aaveExecuteLeverage lowDelegationCfg aaveStartState (2 * 10 ^ 18) (10 ^ 18) 0).2).head? =
      some (.transferFromUser (10 ^ 18)) :=
  ⟨rfl, rfl, rfl⟩

/-- C3 amended: with insufficient standing permission both variants fail with
their dedicated error before the flash loan is requested, and the revert
leaves no net asset transfer; the Morpho variant checks authorization before
any transfer (trace is just the failed check), while the Aave variant pulls
the deposit first and checks delegation afterwards (the revert unwinds the
transfer, so the final state is unchanged). -/
theorem C3_authorization_gating :
    (∀ cfg s targetLeverage userDeposit, cfg.paused = false →
        PRECISION < targetLeverage → targetLeverage ≤ MAX_LEVERAGE → userDeposit ≠ 0 →
        cfg.authorized = false →
        morphoExecuteLeverage cfg s targetLeverage userDeposit =
          (.error .AuthorizationNotGranted, [.authCheck false])) ∧
    (∀ cfg s targetLeverage userDeposit minOut, cfg.paused = false →
        PRECISION < targetLeverage → targetLeverage ≤ MAX_LEVERAGE → userDeposit ≠ 0 →
        userDeposit ≤ s.userWsteth →
        aaveFlashWeth cfg.exchangeRate userDeposit targetLeverage ≠ 0 →
        cfg.delegatedAllowance < aaveFlashWeth cfg.exchangeRate userDeposit targetLeverage →
        aaveExecuteLeverage cfg s targetLeverage userDeposit minOut =
          (.error .InsufficientDelegation, [.transferFromUser userDeposit, .authCheck false]) ∧
        txFinal s (aaveExecuteLeverage cfg s targetLeverage userDeposit minOut) = s) := by
  constructor
  · intro cfg s L D hp hL1 hL2 hD ha
    simp only [morphoExecuteLeverage]
    rw [if_neg (by simp [hp]), if_neg (by push_neg; omega), if_neg hD, if_pos ha]
  · intro cfg s L D m hp hL1 hL2 hD hbal h6 h7
    have he : aaveExecuteLeverage cfg s L D m =
        (.error .InsufficientDelegation, [.transferFromUser D, .authCheck false]) := by
      simp only [aaveExecuteLeverage]
      rw [if_neg (by simp [hp]), if_neg (by push_neg; omega), if_neg hD,
          if_neg (by omega), if_neg h6, if_pos h7]
    refine ⟨he, ?_⟩
    rw [he]
    rfl

/-- Morpho-variant environment whose owner never called `setAuthorization`. -/
def unauthorizedCfg : Config := { witnessCfg with authorized := false }

theorem C3_authorization_gating_witness :
    morphoExecuteLeverage unauthorizedCfg levState (2 * 10 ^ 18) (10 ^ 18) =
      (.error .AuthorizationNotGranted, [.authCheck false]) ∧
    aaveExecuteLeverage lowDelegationCfg aaveStartState (2 * 10 ^ 18) (10 ^ 18) 0 =
      (.error .InsufficientDelegation, [.transferFromUser (10 ^ 18), .authCheck false]) :=
  ⟨C3_authorization_gating.1 unauthorizedCfg levState (2 * 10 ^ 18) (10 ^ 18) rfl
     (by norm_num [PRECISION]) (by norm_num [MAX_LEVERAGE]) (by norm_num) rfl,
   (C3_authorization_gating.2 lowDelegationCfg aaveStartState (2 * 10 ^ 18) (10 ^ 18) 0 rfl
     (by norm_num [PRECISION]) (by norm_num [MAX_LEVERAGE]) (by norm_num)
     (by norm_num [aaveStartState]) (by decide) (by decide)).1⟩

/-- Embeds `getMaxSafeLeverage` of the Morpho variant (MorphoFlashLoan.sol lines
600-609): 95% of the theoretical `1e36 / (1e18 - LLTV)`. -/
def morphoGetMaxSafeLeverage (lltv : ℕ) : ℕ :=
  PRECISION * PRECISION / (PRECISION - lltv) * 95 / 100

/-- Embeds `getMaxSafeLeverage` of the Aave variant (part_014 lines 402-414): built
from the reserve's LTV bits (0-15), multiplying the LTV itself by 90% inside
the denominator, capped at `MAX_LEVERAGE`. -/
def aaveGetMaxSafeLeverage (config : ℕ) : ℕ :=
  if reserveLtv config = 0 then PRECISION
  else if BPS_BASE ≤ reserveLtv config * 90 / 100 then MAX_LEVERAGE
  else if MAX_LEVERAGE < BPS_BASE * PRECISION / (BPS_BASE - reserveLtv config * 90 / 100) then
    MAX_LEVERAGE
  else BPS_BASE * PRECISION / (BPS_BASE - reserveLtv config * 90 / 100)

/-- C8 counterexample: for the reserve word with LTV 8000 bps and liquidation
threshold 8500 bps, the Aave variant returns 1e22/2800 ≈ 3.571e18, which is
below 90% of the theoretical `1/(1 - threshold)` headroom (≈6.667e18, 90% =
6e18) and even below 90% of the LTV-based theoretical (5e18, 90% = 4.5e18) —
the Aave variant does not retain 90-95% of the theoretical headroom. -/
theorem C8_counterexample :
    reserveLiqThreshold (8000 + 8500 * 2 ^ 16) = 8500 ∧
    reserveLtv (8000 + 8500 * 2 ^ 16) = 8000 ∧
    100 * aaveGetMaxSafeLeverage (8000 + 8500 * 2 ^ 16) <
      90 * (BPS_BASE * PRECISION / (BPS_BASE - reserveLiqThreshold (8000 + 8500 * 2 ^ 16))) ∧
    100 * aaveGetMaxSafeLeverage (8000 + 8500 * 2 ^ 16) <
      90 * (BPS_BASE * PRECISION / (BPS_BASE - reserveLtv (8000 + 8500 * 2 ^ 16))) := by
  refine ⟨by decide, by decide, ?_, ?_⟩
  · have h1 : aaveGetMaxSafeLeverage (8000 + 8500 * 2 ^ 16) = 3571428571428571428 := by decide
    have h2 : BPS_BASE * PRECISION /
        (BPS_BASE - reserveLiqThreshold (8000 + 8500 * 2 ^ 16)) = 6666666666666666666 := by
      decide
    rw [h1, h2]
    norm_num
  · have h1 : aaveGetMaxSafeLeverage (8000 + 8500 * 2 ^ 16) = 3571428571428571428 := by decide
    have h2 : BPS_BASE * PRECISION /
        (BPS_BASE - reserveLtv (8000 + 8500 * 2 ^ 16)) = 5000000000000000000 := by decide
    rw [h1, h2]
    norm_num

/-- C8 amended: the Morpho variant returns exactly 95% (floor) of the
theoretical `1e36 / (1e18 - LLTV)` and therefore retains between 90% and 95%
of the theoretical headroom; the Aave variant instead computes
`BPS * 1e18 / (BPS - 0.9·LTV)` from the reserve's LTV bits, capped at
`MAX_LEVERAGE`, which is a different formula and can fall below 90% of the
theoretical headroom. -/
theorem C8_max_safe_leverage (lltv config : ℕ) (hl : lltv < PRECISION)
    (hc0 : 0 < reserveLtv config) (hc1 : reserveLtv config * 90 / 100 < BPS_BASE) :
    (morphoGetMaxSafeLeverage lltv =
        PRECISION * PRECISION / (PRECISION - lltv) * 95 / 100 ∧
      90 * (PRECISION * PRECISION / (PRECISION - lltv)) ≤
        100 * morphoGetMaxSafeLeverage lltv ∧
      100 * morphoGetMaxSafeLeverage lltv ≤
        95 * (PRECISION * PRECISION / (PRECISION - lltv))) ∧
    aaveGetMaxSafeLeverage config =
      min MAX_LEVERAGE (BPS_BASE * PRECISION / (BPS_BASE - reserveLtv config * 90 / 100)) := by
  constructor
  · have htheo : PRECISION ≤ PRECISION * PRECISION / (PRECISION - lltv) :=
      (Nat.le_div_iff_mul_le (by omega)).2 (Nat.mul_le_mul le_rfl (by omega))
    have hP : PRECISION = 1000000000000000000 := by norm_num [PRECISION]
    have hdm := Nat.div_add_mod (PRECISION * PRECISION / (PRECISION - lltv) * 95) 100
    have hmod := Nat.mod_lt (PRECISION * PRECISION / (PRECISION - lltv) * 95)
      (show 0 < 100 by norm_num)
    unfold morphoGetMaxSafeLeverage
    omega
  · unfold aaveGetMaxSafeLeverage
    rw [if_neg (by omega), if_neg (by omega), Nat.min_def]
    split_ifs <;> omega

theorem C8_max_safe_leverage_witness :
    (morphoGetMaxSafeLeverage (86 * 10 ^ 16) =
        PRECISION * PRECISION / (PRECISION - 86 * 10 ^ 16) * 95 / 100 ∧
      90 * (PRECISION * PRECISION / (PRECISION - 86 * 10 ^ 16)) ≤
        100 * morphoGetMaxSafeLeverage (86 * 10 ^ 16) ∧
      100 * morphoGetMaxSafeLeverage (86 * 10 ^ 16) ≤
        95 * (PRECISION * PRECISION / (PRECISION - 86 * 10 ^ 16))) ∧
    aaveGetMaxSafeLeverage (8000 + 8500 * 2 ^ 16) =
      min MAX_LEVERAGE
        (BPS_BASE * PRECISION /
          (BPS_BASE - reserveLtv (8000 + 8500 * 2 ^ 16) * 90 / 100)) :=
  C8_max_safe_leverage (86 * 10 ^ 16) (8000 + 8500 * 2 ^ 16)
    (by norm_num [PRECISION]) (by decide) (by decide)

/-- Embeds `simulateLeverage` of the Aave variant (part_014 lines 351-397): reverts
with `InvalidParameters` for `targetLeverage ≤ 1` or `deposit = 0` (there is
no upper-bound check), estimates the swap at the exchange rate, and derives
the health factor from the reserve's liquidation-threshold bits. -/
def aaveSimulateLeverage (exchangeRate config targetLeverage userDeposit : ℕ) :
    Except Err (ℕ × ℕ × ℕ × ℕ) :=
  if targetLeverage ≤ PRECISION ∨ userDeposit = 0 then .error .InvalidParameters
  else if exchangeRate = 0 then .error .arithmeticError
  else if aaveFlashWeth exchangeRate userDeposit targetLeverage = 0 then
    .ok (aaveFlashWeth exchangeRate userDeposit targetLeverage,
         userDeposit + aaveFlashWeth exchangeRate userDeposit targetLeverage * PRECISION /
           exchangeRate,
         aaveFlashWeth exchangeRate userDeposit targetLeverage, UINT256_MAX)
  else
    .ok (aaveFlashWeth exchangeRate userDeposit targetLeverage,
         userDeposit + aaveFlashWeth exchangeRate userDeposit targetLeverage * PRECISION /
           exchangeRate,
         aaveFlashWeth exchangeRate userDeposit targetLeverage,
         (userDeposit + aaveFlashWeth exchangeRate userDeposit targetLeverage * PRECISION /
            exchangeRate) * exchangeRate * reserveLiqThreshold config /
           (aaveFlashWeth exchangeRate userDeposit targetLeverage * BPS_BASE))

/-- C9 counterexample: the Morpho preview path does NOT fail with
`InvalidParameters` on out-of-range input — it silently returns all zeros
for `targetLeverage = 0.5 ≤ 1.0` — and the real Morpho path rejects
`deposit = 0` with `InsufficientDeposit`, not `InvalidParameters`. -/
theorem C9_counterexample :
    morphoSimulateLeverage (10 ^ 36) (81 * 10 ^ 16) none (5 * 10 ^ 17) (10 ^ 18) =
      .ok (0, 0, 0, 0) ∧
    (morphoExecuteLeverage witnessCfg levState (2 * 10 ^ 18) 0).1 =
      .error .InsufficientDeposit :=
  ⟨rfl, rfl⟩

/-- C9 amended: the Morpho `executeLeverage` rejects out-of-range leverage
with `InvalidParameters` but a zero deposit with `InsufficientDeposit`; its
preview returns `(0,0,0,0)` successfully instead of failing for
`targetLeverage ≤ 1` or `deposit = 0`, and accepts leverage above
`MAX_LEVERAGE`.  The Aave `executeLeverage` rejects both conditions with
`InvalidParameters`; its preview reverts with `InvalidParameters` for
`targetLeverage ≤ 1` or `deposit = 0` but also accepts leverage above
`MAX_LEVERAGE`. -/
theorem C9_parameter_validation :
    (∀ cfg s targetLeverage userDeposit, cfg.paused = false →
        (targetLeverage ≤ PRECISION ∨ MAX_LEVERAGE < targetLeverage) →
        (morphoExecuteLeverage cfg s targetLeverage userDeposit).1 =
          .error .InvalidParameters) ∧
    (∀ cfg s targetLeverage, cfg.paused = false →
        PRECISION < targetLeverage → targetLeverage ≤ MAX_LEVERAGE →
        (morphoExecuteLeverage cfg s targetLeverage 0).1 = .error .InsufficientDeposit) ∧
    (∀ oraclePrice lltv uniPool targetLeverage userDeposit,
        (targetLeverage ≤ PRECISION ∨ userDeposit = 0) →
        morphoSimulateLeverage oraclePrice lltv uniPool targetLeverage userDeposit =
          .ok (0, 0, 0, 0)) ∧
    (∀ cfg s targetLeverage userDeposit minOut, cfg.paused = false →
        (targetLeverage ≤ PRECISION ∨ MAX_LEVERAGE < targetLeverage ∨ userDeposit = 0) →
        (aaveExecuteLeverage cfg s targetLeverage userDeposit minOut).1 =
          .error .InvalidParameters) ∧
    (∀ exchangeRate config targetLeverage userDeposit,
        (targetLeverage ≤ PRECISION ∨ userDeposit = 0) →
        aaveSimulateLeverage exchangeRate config targetLeverage userDeposit =
          .error .InvalidParameters) ∧
    ((morphoSimulateLeverage (10 ^ 36) (8 * 10 ^ 17) none (200 * 10 ^ 18)
        (10 ^ 18)).toOption.getD (0, 0, 0, 0)).1 = 199 * 10 ^ 18 ∧
    ((aaveSimulateLeverage (10 ^ 18) 0 (200 * 10 ^ 18) (10 ^ 18)).toOption.getD
        (0, 0, 0, 0)).1 = 199 * 10 ^ 18 := by
  refine ⟨?_, ?_, ?_, ?_, ?_, by rfl, by rfl⟩
  · intro cfg s L D hp hr
    simp only [morphoExecuteLeverage]
    rw [if_neg (by simp [hp]), if_pos hr]
  · intro cfg s L hp h1 h2
    simp only [morphoExecuteLeverage]
    rw [if_neg (by simp [hp]), if_neg (by push_neg; omega), if_pos trivial]
  · intro p l pool L D hc
    unfold morphoSimulateLeverage
    rw [if_pos hc]
  · intro cfg s L D m hp hc
    simp only [aaveExecuteLeverage]
    by_cases hr : L ≤ PRECISION ∨ MAX_LEVERAGE < L
    · rw [if_neg (by simp [hp]), if_pos hr]
    · have hD : D = 0 := by
        rcases hc with h | h | h
        · exact absurd (Or.inl h) hr
        · exact absurd (Or.inr h) hr
        · exact h
      rw [if_neg (by simp [hp]), if_neg hr, if_pos hD]
  · intro r c L D hc
    unfold aaveSimulateLeverage
    rw [if_pos hc]

theorem C9_parameter_validation_witness :
    (morphoExecuteLeverage witnessCfg levState (200 * 10 ^ 18) (10 ^ 18)).1 =
      .error .InvalidParameters ∧
    (morphoExecuteLeverage witnessCfg levState (2 * 10 ^ 18) 0).1 =
      .error .InsufficientDeposit ∧
    morphoSimulateLeverage (10 ^ 36) (81 * 10 ^ 16) none (10 ^ 18) (10 ^ 18) =
      .ok (0, 0, 0, 0) ∧
    (aaveExecuteLeverage aaveOkCfg aaveStartState (10 ^ 18) (10 ^ 18) 0).1 =
      .error .InvalidParameters ∧
    aaveSimulateLeverage (10 ^ 18) 0 (10 ^ 18) (10 ^ 18) = .error .InvalidParameters :=
  ⟨C9_parameter_validation.1 witnessCfg levState (200 * 10 ^ 18) (10 ^ 18) rfl
     (Or.inr (by norm_num [PRECISION, MAX_LEVERAGE])),
   C9_parameter_validation.2.1 witnessCfg levState (2 * 10 ^ 18) rfl
     (by norm_num [PRECISION]) (by norm_num [PRECISION, MAX_LEVERAGE]),
   C9_parameter_validation.2.2.1 (10 ^ 36) (81 * 10 ^ 16) none (10 ^ 18) (10 ^ 18)
     (Or.inl (by norm_num [PRECISION])),
   C9_parameter_validation.2.2.2.1 aaveOkCfg aaveStartState (10 ^ 18) (10 ^ 18) 0 rfl
     (Or.inl (by norm_num [PRECISION])),
   C9_parameter_validation.2.2.2.2.1 (10 ^ 18) 0 (10 ^ 18) (10 ^ 18)
     (Or.inl (by norm_num [PRECISION]))⟩
